import Mathlib

/-!
Shallow embedding of the rss-reader session engine (src/app.rs), the
repository layer (src/db/repository.rs over src/db/schema.rs), the feed
fetcher (src/feed/fetcher.rs) and the summarizer request construction
(src/ai/summarizer.rs).

Conventions:
* `i64` ids and timestamps become `Int` (timestamps are abstract instants;
  the store keeps them as text but no claim inspects their format).
* SQL tables become `List` of row structures; `DELETE`/`UPDATE ... WHERE`
  become `filter`/`map`; the SQLite upserts (`ON CONFLICT ... DO UPDATE`)
  update the conflicting rows in place and otherwise append a fresh row.
* Fallible Rust code becomes `Option`/`Except`; a Rust panic is `none`.
* The `tokio` plumbing is made explicit: `poll_summary_result` is modelled
  on the message it drains from the completion channel, and
  `generate_summary` returns, next to the new state, the article id of the
  background job it spawns (`none` when no job is spawned, which is exactly
  when the summarization backend is not invoked).
-/

/-- Summary status enum from src/models/summary.rs. -/
inductive SummaryStatus where
  | NotGenerated
  | Generating
  | Generated
  | Failed
  | NoApiKey
deriving DecidableEq, Repr

/-- Article list filter; its three variants and its filtering semantics are
taken from `App::filtered_articles` in src/app.rs (the enum's own module is
not part of the sources, but every variant appears there). -/
inductive ArticleFilter where
  | All
  | Unread
  | Starred
deriving DecidableEq, Repr

/-- A row of the `articles` table (src/db/schema.rs); field list follows
`article_from_row` in src/db/repository.rs.  The display-only `feed_title`
column produced by the JOIN in `get_all_articles_sorted` is omitted: no
modelled operation reads it. -/
structure ArticleRow where
  id : Int
  feed_id : Int
  guid : String
  title : String
  url : String
  author : Option String
  content : Option String
  content_text : Option String
  published_at : Option String
  fetched_at : Int
  is_read : Bool
  is_starred : Bool
deriving DecidableEq, Repr

/-- Input of `Repository::upsert_article`: the `NewArticle` value built by
`FeedFetcher::fetch_feed` (src/feed/fetcher.rs). -/
structure NewArticle where
  feed_id : Int
  guid : String
  title : String
  url : String
  author : Option String
  content : Option String
  content_text : Option String
  published_at : Option String
deriving DecidableEq, Repr

/-- A `Summary` (src/models/summary.rs), also a row of the `summaries`
table as read back by `summary_from_row`. -/
structure Summary where
  id : Int
  article_id : Int
  content : String
  model_version : String
  generated_at : Int
deriving DecidableEq, Repr

/-- A row of the `saved_to_raindrop` table (src/db/schema.rs). -/
structure SavedRow where
  id : Int
  article_id : Int
  raindrop_id : Int
  tags : String
deriving DecidableEq, Repr

/-- A row of the `feeds` table (src/db/schema.rs), fields as in
`feed_from_row` in src/db/repository.rs. -/
structure FeedR where
  id : Int
  title : String
  url : String
  site_url : Option String
  description : Option String
  last_fetched : Option Int
  created_at : Int
  updated_at : Int
deriving DecidableEq, Repr

/-- The natural-key test of the `articles` upsert: `ON CONFLICT(feed_id,
guid)` (src/db/schema.rs UNIQUE(feed_id, guid)). -/
def keyMatches (article : NewArticle) (r : ArticleRow) : Bool :=
  r.feed_id == article.feed_id && r.guid == article.guid

/-- `Repository::upsert_article` (src/db/repository.rs lines 85-114):
INSERT .. ON CONFLICT(feed_id, guid) DO UPDATE SET title, url, author,
content, content_text, published_at.  On conflict the existing row keeps
its id, fetched_at, is_read, is_starred; otherwise a fresh row is inserted
with the schema defaults is_read = 0, is_starred = 0,
fetched_at = datetime(now). -/
def upsert_article (tbl : List ArticleRow) (article : NewArticle)
    (freshId now : Int) : List ArticleRow :=
  if tbl.any (keyMatches article) then
    tbl.map (fun r =>
      if keyMatches article r then
        { r with
          title := article.title
          url := article.url
          author := article.author
          content := article.content
          content_text := article.content_text
          published_at := article.published_at }
      else r)
  else
    tbl ++ [{ id := freshId
              feed_id := article.feed_id
              guid := article.guid
              title := article.title
              url := article.url
              author := article.author
              content := article.content
              content_text := article.content_text
              published_at := article.published_at
              fetched_at := now
              is_read := false
              is_starred := false }]

/-- `Repository::mark_article_read`: UPDATE articles SET is_read WHERE id. -/
def mark_article_read (tbl : List ArticleRow) (id : Int) (is_read : Bool) :
    List ArticleRow :=
  tbl.map (fun a => if a.id == id then { a with is_read := is_read } else a)

/-- `Repository::toggle_article_starred`: UPDATE articles SET
is_starred = NOT is_starred WHERE id. -/
def toggle_article_starred (tbl : List ArticleRow) (id : Int) :
    List ArticleRow :=
  tbl.map (fun a => if a.id == id then { a with is_starred := !a.is_starred } else a)

/-- `Repository::get_summary`: SELECT .. FROM summaries WHERE article_id
(the column is UNIQUE, `query_row ... .optional()` returns the row if any). -/
def get_summary (tbl : List Summary) (article_id : Int) : Option Summary :=
  tbl.find? (fun s => s.article_id == article_id)

/-- `Repository::save_summary`: INSERT .. ON CONFLICT(article_id) DO UPDATE
SET content, model_version, generated_at = datetime(now). -/
def save_summary (tbl : List Summary) (article_id : Int)
    (content model : String) (freshId now : Int) : List Summary :=
  if tbl.any (fun s => s.article_id == article_id) then
    tbl.map (fun s =>
      if s.article_id == article_id then
        { s with content := content, model_version := model, generated_at := now }
      else s)
  else
    tbl ++ [{ id := freshId
              article_id := article_id
              content := content
              model_version := model
              generated_at := now }]

/-- `Repository::is_saved_to_raindrop`: COUNT(*) > 0 on saved_to_raindrop
WHERE article_id. -/
def is_saved_to_raindrop (tbl : List SavedRow) (article_id : Int) : Bool :=
  tbl.any (fun b => b.article_id == article_id)

/-- `Repository::delete_article` (src/db/repository.rs lines 163-178): one
connection call that deletes the summaries row, the saved_to_raindrop row
and the article row for the given id. -/
def delete_article (summaries : List Summary) (saved : List SavedRow)
    (articles : List ArticleRow) (id : Int) :
    List Summary × List SavedRow × List ArticleRow :=
  (summaries.filter (fun s => !(s.article_id == id)),
   saved.filter (fun b => !(b.article_id == id)),
   articles.filter (fun a => !(a.id == id)))

/-- `Repository::update_feed_last_fetched`: UPDATE feeds SET
last_fetched = datetime(now), updated_at = datetime(now) WHERE id. -/
def update_feed_last_fetched (tbl : List FeedR) (id : Int) (now : Int) :
    List FeedR :=
  tbl.map (fun f =>
    if f.id == id then { f with last_fetched := some now, updated_at := now }
    else f)

/-- The message drained from the completion channel (`SummaryResult` in
src/app.rs): article id plus either (summary text, model) or an error. -/
structure SummaryResult where
  article_id : Int
  result : Except String (String × String)
deriving Repr

/-- The session state of `App` (src/app.rs), restricted to the fields the
modelled operations read or write.  The `repository` handle becomes the
three table fields `dbArticles`, `dbSummaries`, `dbSaved`; the
`summarizer : Option<Summarizer>` service handle becomes the flag
`hasSummarizer`; the modal-input strings/flags, spinner frame and the
wall-clock `selection_time` timer are not modelled (no claim touches
them). -/
structure AppState where
  articles : List ArticleRow
  current_summary : Option Summary
  selected_index : Nat
  filter : ArticleFilter
  is_saved_to_raindrop : Bool
  summary_status : SummaryStatus
  pending_summary_article_id : Option Int
  hasSummarizer : Bool
  dbArticles : List ArticleRow
  dbSummaries : List Summary
  dbSaved : List SavedRow
deriving DecidableEq, Repr

/-- The filter predicate of `App::filtered_articles` (src/app.rs 118-127). -/
def matchesFilter (filter : ArticleFilter) (a : ArticleRow) : Bool :=
  match filter with
  | ArticleFilter.All => true
  | ArticleFilter.Unread => !a.is_read
  | ArticleFilter.Starred => a.is_starred

/-- `App::filtered_articles` applied to an arbitrary article list (the
delete handler recomputes it right after mutating the list). -/
def articlesFiltered (filter : ArticleFilter) (articles : List ArticleRow) :
    List ArticleRow :=
  articles.filter (matchesFilter filter)

/-- `App::filtered_articles` on the session state. -/
def filtered_articles (st : AppState) : List ArticleRow :=
  articlesFiltered st.filter st.articles

/-- `App::selected_article`: the filtered list indexed at selected_index
(`get` returns None out of range). -/
def selected_article (st : AppState) : Option ArticleRow :=
  (filtered_articles st)[st.selected_index]?

/-- `App::reload_articles` (src/app.rs 564-567): replace the in-memory list
with the store's contents.  The store-side ORDER BY published_at is not
modelled (no claim depends on display order). -/
def reload_articles (st : AppState) : AppState :=
  { st with articles := st.dbArticles }

/-- `App::on_selection_changed` (src/app.rs 307-335): reset summary state
and the bookmark flag, then repopulate both from the store for the newly
selected article.  The read-timer arming is wall-clock and not modelled. -/
def on_selection_changed (st : AppState) : AppState :=
  let st1 := { st with
    summary_status := SummaryStatus.NotGenerated
    current_summary := none
    is_saved_to_raindrop := false }
  match selected_article st1 with
  | none => st1
  | some a =>
    let st2 := { st1 with is_saved_to_raindrop := is_saved_to_raindrop st1.dbSaved a.id }
    match get_summary st2.dbSummaries a.id with
    | some summary =>
      { st2 with current_summary := some summary
                 summary_status := SummaryStatus.Generated }
    | none => st2

/-- The discrete session actions modelled here: the navigation and
list-mutating arms of `App::handle_action` (src/app.rs 134-305).  The modal
input arms, the externally-opening arms and the arms that only launch
background work are handled by their own definitions or are out of the
claims' reach. -/
inductive AppAction where
  | MoveUp
  | MoveDown
  | ToggleRead
  | ToggleStarred
  | DeleteArticle
deriving DecidableEq, Repr

/-- The corresponding arms of `App::handle_action`.  `ToggleRead` and
`ToggleStarred` write the store and then `reload_articles`; the
`DeleteArticle` arm (src/app.rs 211-226) deletes from the store, retains
the other articles locally, clamps the selection when it fell off the end,
and resets the summary state. -/
def handle_action (st : AppState) (action : AppAction) : AppState :=
  match action with
  | AppAction.MoveUp =>
    let len := (filtered_articles st).length
    if len > 0 && st.selected_index > 0 then
      on_selection_changed { st with selected_index := st.selected_index - 1 }
    else st
  | AppAction.MoveDown =>
    let len := (filtered_articles st).length
    if len > 0 && st.selected_index < len - 1 then
      on_selection_changed { st with selected_index := st.selected_index + 1 }
    else st
  | AppAction.ToggleRead =>
    match selected_article st with
    | some article =>
      let db := mark_article_read st.dbArticles article.id (!article.is_read)
      reload_articles { st with dbArticles := db }
    | none => st
  | AppAction.ToggleStarred =>
    match selected_article st with
    | some article =>
      let db := toggle_article_starred st.dbArticles article.id
      reload_articles { st with dbArticles := db }
    | none => st
  | AppAction.DeleteArticle =>
    match selected_article st with
    | some article =>
      let deleted := delete_article st.dbSummaries st.dbSaved st.dbArticles article.id
      let articles := st.articles.filter (fun a => !(a.id == article.id))
      let len := (articlesFiltered st.filter articles).length
      let newIndex :=
        if len > 0 && st.selected_index >= len then len - 1 else st.selected_index
      { st with
        dbSummaries := deleted.1
        dbSaved := deleted.2.1
        dbArticles := deleted.2.2
        articles := articles
        selected_index := newIndex
        summary_status := SummaryStatus.NotGenerated
        current_summary := none }
    | none => st

/-- `App::generate_summary` (src/app.rs 337-407) up to the point where the
background job is spawned.  Returns the new state together with the id of
the article a summarization job was spawned for (`none` = no job, backend
not invoked).  The content-resolution chain runs strictly after the cache
gate and only feeds the spawned job's payload, so it is not modelled. -/
def generate_summary (st : AppState) : AppState × Option Int :=
  if !st.hasSummarizer then
    ({ st with summary_status := SummaryStatus.NoApiKey }, none)
  else
    match selected_article st with
    | none => (st, none)
    | some article =>
      match get_summary st.dbSummaries article.id with
      | some summary =>
        ({ st with current_summary := some summary
                   summary_status := SummaryStatus.Generated }, none)
      | none =>
        ({ st with
           dbArticles := mark_article_read st.dbArticles article.id true
           summary_status := SummaryStatus.Generating
           pending_summary_article_id := some article.id }, some article.id)

/-- `App::poll_summary_result` (src/app.rs 421-462), modelled on the single
message the non-blocking receive drained (when `try_recv` yields nothing
the state is untouched).  `now` is the completion wall-clock instant and
`freshId` the rowid a fresh summaries row would get. -/
def poll_summary_result (st : AppState) (result : SummaryResult)
    (now freshId : Int) : AppState :=
  if st.pending_summary_article_id == some result.article_id then
    let article_exists := st.articles.any (fun a => a.id == result.article_id)
    match result.result with
    | Except.ok (summary_text, model) =>
      if article_exists then
        { st with
          dbSummaries := save_summary st.dbSummaries result.article_id
            summary_text model freshId now
          current_summary := some { id := 0
                                    article_id := result.article_id
                                    content := summary_text
                                    model_version := model
                                    generated_at := now }
          summary_status := SummaryStatus.Generated
          pending_summary_article_id := none }
      else
        { st with summary_status := SummaryStatus.NotGenerated
                  pending_summary_article_id := none }
    | Except.error _ =>
      { st with summary_status := SummaryStatus.Failed
                pending_summary_article_id := none }
  else st

/-- `FeedFetcher::refresh_all` (src/feed/fetcher.rs 76-96): fetch every
feed, keep `(feed.id, articles)` for the successes and drop the failures.
`fetch` stands for `fetch_feed` together with the network (HTTP status,
payload parse); the `buffer_unordered(5)` concurrency ceiling only permutes
the result order, which no claim observes, so the fan-out is modelled
in feed-list order. -/
def refresh_all (fetch : FeedR → Except String (List NewArticle))
    (feeds : List FeedR) : List (Int × List NewArticle) :=
  feeds.filterMap (fun feed =>
    match fetch feed with
    | Except.ok articles => some (feed.id, articles)
    | Except.error _ => none)

/-- The feeds-table effect of the loop in `App::refresh_feeds`
(src/app.rs 539-562): for each returned result, advance that feed's
last-fetched timestamp.  (The same loop also upserts the result's articles
into the disjoint articles table; that table is untouched by
`update_feed_last_fetched` and unobserved by the refresh-timestamp claim.) -/
def refresh_feeds_db (tbl : List FeedR)
    (results : List (Int × List NewArticle)) (now : Int) : List FeedR :=
  results.foldl (fun t p => update_feed_last_fetched t p.1 now) tbl

/-- UTF-8 encoded size of one scalar value, as for Rust `char`/`str`. -/
def utf8Size (c : Char) : Nat :=
  if c.toNat < 0x80 then 1
  else if c.toNat < 0x800 then 2
  else if c.toNat < 0x10000 then 3
  else 4

/-- Byte length of a Rust `str` whose scalar values are `s` — the value of
`article_content.len()` in `Summarizer::generate_summary`. -/
def utf8Len (s : List Char) : Nat :=
  match s with
  | [] => 0
  | c :: cs => utf8Size c + utf8Len cs

/-- Rust byte-slicing `&s[..n]` on a string: `some` prefix when byte index
`n` lands on a character boundary within range, `none` when the slice
panics (n inside a multi-byte character or past the end). -/
def sliceToByte : Nat → List Char → Option (List Char)
  | 0, _ => some []
  | _ + 1, [] => none
  | n + 1, c :: cs =>
    if utf8Size c ≤ n + 1 then
      (sliceToByte (n + 1 - utf8Size c) cs).map (fun l => c :: l)
    else none

/-- The content truncation in `Summarizer::generate_summary`
(src/ai/summarizer.rs 62-67): `if article_content.len() > 10000 {
&article_content[..10000] } else { article_content }`. -/
def truncateContent (article_content : List Char) : Option (List Char) :=
  if utf8Len article_content > 10000 then sliceToByte 10000 article_content
  else some article_content

/-- The `user_message` of the summarization backend request
(src/ai/summarizer.rs 69-72), built over the truncated content; `none`
when the truncation slice panics. -/
def mkUserMessage (article_title article_content : List Char) :
    Option (List Char) :=
  (truncateContent article_content).map (fun content =>
    "Please summarize the following article:\n\nTitle: ".data
      ++ article_title ++ "\n\nContent:\n".data ++ content)

/-- Items of the two hand-written auto-discovery regexes in
`FeedFetcher::find_feed_link` (src/feed/fetcher.rs 166-186): a literal, a
quote class `["']`, the gap `[^>]*`, the alternation group
`(rss|atom)` and the captured href group `([^"']+)`. -/
inductive RItem where
  | lit : List Char → RItem
  | quote : RItem
  | starNotGt : RItem
  | grpAlt : List (List Char) → RItem
  | grpHref : RItem
deriving Repr

/-- The `["']` character class. -/
def isQuoteChar (c : Char) : Bool := c.toNat == 34 || c.toNat == 39

/-- Backtracking for the greedy `[^>]*` gap: try consuming `k` characters
(all inside the class by construction), longest first, as the regex
engine's leftmost-first semantics does. -/
def tryStar (f : List Char → Option (Option (List Char))) (s : List Char) :
    Nat → Option (Option (List Char))
  | 0 => f s
  | k + 1 =>
    match f (s.drop (k + 1)) with
    | some r => some r
    | none => tryStar f s k

/-- Backtracking for the greedy captured `([^"']+)` href group: try `k`
characters, longest first, at least one; on success the capture is the
consumed prefix (this group is the only capturing group the code reads,
`cap.get(2)`). -/
def tryHref (f : List Char → Option (Option (List Char))) (s : List Char) :
    Nat → Option (Option (List Char))
  | 0 => none
  | k + 1 =>
    match f (s.drop (k + 1)) with
    | some _ => some (some (s.take (k + 1)))
    | none => tryHref f s k

/-- The `(rss|atom)` alternation, alternatives tried in written order
(leftmost-first). -/
def tryAlts (f : List Char → Option (Option (List Char))) :
    List (List Char) → List Char → Option (Option (List Char))
  | [], _ => none
  | a :: rest, s =>
    match (if a.isPrefixOf s then f (s.drop a.length) else none) with
    | some r => some r
    | none => tryAlts f rest s

/-- Match a pattern against a prefix of `s`; `some cap` when it matches,
carrying the captured href text if the href group was crossed. -/
def matchItems : List RItem → List Char → Option (Option (List Char))
  | [], _ => some none
  | RItem.lit l :: rest, s =>
    if l.isPrefixOf s then matchItems rest (s.drop l.length) else none
  | RItem.quote :: rest, s =>
    match s with
    | [] => none
    | c :: s1 => if isQuoteChar c then matchItems rest s1 else none
  | RItem.grpAlt alts :: rest, s => tryAlts (matchItems rest) alts s
  | RItem.starNotGt :: rest, s =>
    tryStar (matchItems rest) s
      ((s.takeWhile (fun c => !(c == '>'))).length)
  | RItem.grpHref :: rest, s =>
    tryHref (matchItems rest) s
      ((s.takeWhile (fun c => !(isQuoteChar c))).length)

/-- `Regex::captures`: the match at the leftmost starting position,
scanning starts left to right. -/
def firstCaptures (pat : List RItem) : List Char → Option (Option (List Char))
  | [] => matchItems pat []
  | c :: s1 =>
    match matchItems pat (c :: s1) with
    | some r => some r
    | none => firstCaptures pat s1

/-- `link_re` of `find_feed_link`:
`<link[^>]*rel=["']alternate["'][^>]*type=["']application/(rss|atom)\+xml["'][^>]*href=["']([^"']+)["']`. -/
def linkRe1 : List RItem :=
  [RItem.lit "<link".data, RItem.starNotGt,
   RItem.lit "rel=".data, RItem.quote, RItem.lit "alternate".data, RItem.quote,
   RItem.starNotGt,
   RItem.lit "type=".data, RItem.quote, RItem.lit "application/".data,
   RItem.grpAlt ["rss".data, "atom".data], RItem.lit "+xml".data, RItem.quote,
   RItem.starNotGt,
   RItem.lit "href=".data, RItem.quote, RItem.grpHref, RItem.quote]

/-- `link_re2` of `find_feed_link` (type before rel):
`<link[^>]*type=["']application/(rss|atom)\+xml["'][^>]*href=["']([^"']+)["']`. -/
def linkRe2 : List RItem :=
  [RItem.lit "<link".data, RItem.starNotGt,
   RItem.lit "type=".data, RItem.quote, RItem.lit "application/".data,
   RItem.grpAlt ["rss".data, "atom".data], RItem.lit "+xml".data, RItem.quote,
   RItem.starNotGt,
   RItem.lit "href=".data, RItem.quote, RItem.grpHref, RItem.quote]

/-- `FeedFetcher::resolve_url` (src/feed/fetcher.rs 189-201).  `urlJoin`
stands for the external url crate's `Url::parse(base).join(href)`
composition (`none` when either step fails, which falls through to the
raw href). -/
def resolve_url (urlJoin : List Char → List Char → Option (List Char))
    (href base_url : List Char) : List Char :=
  if "http://".data.isPrefixOf href || "https://".data.isPrefixOf href then
    href
  else
    match urlJoin base_url href with
    | some resolved => resolved
    | none => href

/-- `FeedFetcher::find_feed_link` (src/feed/fetcher.rs 166-186):
`link_re.captures(html).or_else(link_re2.captures(html)).and_then(get(2))`,
then resolve the href against the base (the caller passes the fetched
page's final post-redirect URL). -/
def find_feed_link (urlJoin : List Char → List Char → Option (List Char))
    (html base_url : List Char) : Option (List Char) :=
  let cap :=
    match firstCaptures linkRe1 html with
    | some r => some r
    | none => firstCaptures linkRe2 html
  match cap with
  | some (some href) => some (resolve_url urlJoin href base_url)
  | some none => none
  | none => none

/-- The spec's session invariant on the selection cursor: the index is
below the filtered count, or 0 when the filtered set is empty. -/
def selection_invariant (st : AppState) : Prop :=
  st.selected_index < (filtered_articles st).length ∨
    ((filtered_articles st).length = 0 ∧ st.selected_index = 0)

instance (st : AppState) : Decidable (selection_invariant st) := by
  unfold selection_invariant; infer_instance

/-- Sample unread article with id 1. -/
def cexArticle1 : ArticleRow :=
  { id := 1, feed_id := 1, guid := "g1", title := "t1", url := "u1",
    author := none, content := none, content_text := none,
    published_at := none, fetched_at := 0, is_read := false, is_starred := false }

/-- Sample unread article with id 2. -/
def cexArticle2 : ArticleRow :=
  { cexArticle1 with id := 2, guid := "g2" }

/-- A freshly started session showing two unread articles (both also in the
store), cursor at 0, Unread filter, nothing pending. -/
def cexState0 : AppState :=
  { articles := [cexArticle1, cexArticle2]
    current_summary := none
    selected_index := 0
    filter := ArticleFilter.Unread
    is_saved_to_raindrop := false
    summary_status := SummaryStatus.NotGenerated
    pending_summary_article_id := none
    hasSummarizer := false
    dbArticles := [cexArticle1, cexArticle2]
    dbSummaries := []
    dbSaved := [] }

/-- A successful completion for article 1. -/
def resOk1 : SummaryResult :=
  { article_id := 1, result := Except.ok ("text", "model") }

/-- A successful completion for article 3 (an id absent from `cexState0`). -/
def resOk3 : SummaryResult :=
  { article_id := 3, result := Except.ok ("text", "model") }

/-- `cexState0` while a job for article 2 is pending. -/
def pollMismatchState : AppState :=
  { cexState0 with pending_summary_article_id := some 2 }

/-- `cexState0` while a job for article 1 is pending. -/
def pollMatchState : AppState :=
  { cexState0 with pending_summary_article_id := some 1 }

/-- `cexState0` while a job for the since-deleted article 3 is pending. -/
def pollDeletedState : AppState :=
  { cexState0 with pending_summary_article_id := some 3 }

/-- A cached summary row for article 1. -/
def cachedSummary1 : Summary :=
  { id := 5, article_id := 1, content := "cached", model_version := "m",
    generated_at := 7 }

/-- A session with a configured summarizer and a cached summary for the
selected article 1. -/
def genState : AppState :=
  { cexState0 with hasSummarizer := true, dbSummaries := [cachedSummary1] }

/-- A saved-to-raindrop tracking row for article 1. -/
def wSaved1 : SavedRow :=
  { id := 1, article_id := 1, raindrop_id := 9, tags := "[]" }

/-- A stored article row carrying read/star marks, natural key (1, "g"). -/
def wRow : ArticleRow :=
  { id := 10, feed_id := 1, guid := "g", title := "old", url := "old-url",
    author := none, content := none, content_text := none,
    published_at := none, fetched_at := 3, is_read := true, is_starred := true }

/-- A re-fetched article with the same natural key (1, "g") and fresh
field values. -/
def wNew : NewArticle :=
  { feed_id := 1, guid := "g", title := "new", url := "new-url",
    author := some "au", content := some "c", content_text := some "ct",
    published_at := some "2026-01-01T00:00:00+00:00" }

/-- A feed whose fetch will fail. -/
def wFeedFail : FeedR :=
  { id := 1, title := "bad", url := "http://bad", site_url := none,
    description := none, last_fetched := some 5, created_at := 0,
    updated_at := 0 }

/-- A feed whose fetch will succeed. -/
def wFeedOk : FeedR :=
  { id := 2, title := "good", url := "http://good", site_url := none,
    description := none, last_fetched := none, created_at := 0,
    updated_at := 0 }

/-- A fetch outcome map: feed 1 times out, every other feed returns one
article. -/
def wFetch (f : FeedR) : Except String (List NewArticle) :=
  if f.id == 1 then Except.error "timeout" else Except.ok [wNew]

/-- An HTML document carrying a type-first discovery tag (href `x`) before
a rel-first discovery tag (relative href `/f`). -/
def wHtml : List Char :=
  "<link type='application/rss+xml' href='x'><link rel='alternate' type='application/atom+xml' href='/f'>".data

/-- The fetched page's final URL for the discovery witness. -/
def wBase : List Char := "http://example.com/page".data

/-- A stand-in for the url crate's parse-and-join used by the witness. -/
def wJoin (base href : List Char) : Option (List Char) := some (base ++ href)

/-- Article content of byte length 10002 whose byte 10000 falls inside the
two-byte character U+00E9: 9999 ASCII characters, then U+00E9, then one
more ASCII character. -/
def multiByteContent : List Char :=
  List.replicate 9999 'a' ++ [Char.ofNat 233, 'x']

/-! ## Theorems -/

/-- C1: for every drained completion whose article id differs from the
currently recorded pending-target id, `poll_summary_result` discards the
result and leaves the whole session state — in particular current_summary,
summary_status and pending_summary_article_id — unchanged; the result is
never applied against a mismatched target. -/
theorem poll_discards_mismatched_completion (st : AppState)
    (result : SummaryResult) (now freshId : Int)
    (h : st.pending_summary_article_id ≠ some result.article_id) :
    poll_summary_result st result now freshId = st := by
  unfold poll_summary_result
  simp [h]

/-- Witness for C1: a completion for article 1 drained while article 2 is
the pending target changes nothing. -/
theorem poll_discards_mismatched_completion_witness :
    poll_summary_result pollMismatchState resOk1 0 0 = pollMismatchState :=
  poll_discards_mismatched_completion pollMismatchState resOk1 0 0 (by decide)

/-- C2: a drained successful completion matching the pending target whose
article is gone from the in-memory list sets summary_status to NotGenerated
and leaves the summaries store untouched (no Summary row persisted). -/
theorem poll_deleted_article_resets_status (st : AppState)
    (result : SummaryResult) (now freshId : Int)
    (summary_text model : String)
    (hmatch : st.pending_summary_article_id = some result.article_id)
    (hok : result.result = Except.ok (summary_text, model))
    (hgone : ∀ a ∈ st.articles, a.id ≠ result.article_id) :
    (poll_summary_result st result now freshId).summary_status
        = SummaryStatus.NotGenerated
    ∧ (poll_summary_result st result now freshId).dbSummaries
        = st.dbSummaries := by
  have hany : st.articles.any (fun a => a.id == result.article_id) = false := by
    simp only [List.any_eq_false]
    intro a ha
    simpa using hgone a ha
  unfold poll_summary_result
  simp [hmatch, hok, hany]

/-- Witness for C2: a successful completion for the deleted article 3
drained while 3 is pending resets the status and writes no summary row. -/
theorem poll_deleted_article_resets_status_witness :
    (poll_summary_result pollDeletedState resOk3 0 0).summary_status
        = SummaryStatus.NotGenerated
    ∧ (poll_summary_result pollDeletedState resOk3 0 0).dbSummaries
        = pollDeletedState.dbSummaries :=
  poll_deleted_article_resets_status pollDeletedState resOk3 0 0 "text" "model"
    (by decide) rfl (by decide)

/-- Counterexample to C3 as stated: a drain that receives a completion for
article 1 while article 2 is the pending target does NOT clear the
pending-target marker — it stays `some 2` — so the marker is not cleared
in the mismatching path. -/
theorem poll_mismatch_leaves_pending_set :
    (poll_summary_result pollMismatchState resOk1 0 0).pending_summary_article_id
      ≠ none := by decide

/-- C3 (amended): in every path of the drain that receives a completion
matching the recorded pending target (success with the article present,
success with the article deleted, failure), the pending-target marker is
cleared by the end of the drain; a mismatched completion instead leaves the
state, marker included, unchanged (see
`poll_discards_mismatched_completion`). -/
theorem poll_match_clears_pending (st : AppState) (result : SummaryResult)
    (now freshId : Int)
    (hmatch : st.pending_summary_article_id = some result.article_id) :
    (poll_summary_result st result now freshId).pending_summary_article_id
      = none := by
  unfold poll_summary_result
  rcases hres : result.result with e | p
  · simp [hmatch, hres]
  · obtain ⟨summary_text, model⟩ := p
    by_cases hex : st.articles.any (fun a => a.id == result.article_id)
    · simp [hmatch, hres, hex]
    · simp [hmatch, hres, hex]

/-- Witness for the amended C3: a matching completion for article 1 clears
the marker. -/
theorem poll_match_clears_pending_witness :
    (poll_summary_result pollMatchState resOk1 0 0).pending_summary_article_id
      = none :=
  poll_match_clears_pending pollMatchState resOk1 0 0 (by decide)

/-- C4: with a summarization backend configured, submitting a summarization
request for a selected article that has a cached summary in the store loads
the cached summary, sets status Generated, and returns with no job spawned
(second component `none`, so the backend is never invoked) and the pending
target unchanged (the returned state only rewrites current_summary and
summary_status). -/
theorem generate_summary_cache_hit_short_circuits (st : AppState)
    (a : ArticleRow) (s : Summary)
    (hsum : st.hasSummarizer = true)
    (hsel : selected_article st = some a)
    (hcache : get_summary st.dbSummaries a.id = some s) :
    generate_summary st
      = ({ st with current_summary := some s
                   summary_status := SummaryStatus.Generated }, none) := by
  unfold generate_summary
  simp [hsum, hsel, hcache]

/-- Witness for C4: requesting a summary for article 1, which has the
cached summary row `cachedSummary1`, short-circuits. -/
theorem generate_summary_cache_hit_short_circuits_witness :
    generate_summary genState
      = ({ genState with current_summary := some cachedSummary1
                         summary_status := SummaryStatus.Generated }, none) :=
  generate_summary_cache_hit_short_circuits genState cexArticle1 cachedSummary1
    rfl (by decide) (by decide)

/-- Counterexample to C5 as stated: from a reachable session (two unread
articles, Unread filter, cursor moved down to index 1), the ToggleRead
action marks the selected article read and reloads, leaving one filtered
article but the selection index still 1 — the invariant fails after this
action. -/
theorem toggle_read_breaks_selection_invariant :
    ¬ selection_invariant
        (handle_action (handle_action cexState0 AppAction.MoveDown)
          AppAction.ToggleRead) := by
  decide

/-- Removing the one article with a given id from a list with pairwise
distinct ids shortens it by exactly one. -/
theorem length_filter_ne_id (F : List ArticleRow) (a : ArticleRow)
    (hnodup : (F.map ArticleRow.id).Nodup) (hmem : a ∈ F) :
    (F.filter (fun x => !(x.id == a.id))).length + 1 = F.length := by
  induction F with
  | nil => cases hmem
  | cons b F ih =>
    rw [List.map_cons, List.nodup_cons] at hnodup
    by_cases hb : b.id = a.id
    · have hrest : F.filter (fun x => !(x.id == a.id)) = F := by
        apply List.filter_eq_self.mpr
        intro x hx
        simp only [Bool.not_eq_true', beq_eq_false_iff_ne, ne_eq]
        intro hxa
        apply hnodup.1
        have : b.id = x.id := by rw [hb, hxa]
        rw [this]
        exact List.mem_map_of_mem _ hx
      simp [List.filter_cons, hb, hrest]
    · have hmem2 : a ∈ F := by
        rcases List.mem_cons.mp hmem with h | h
        · exact absurd (congrArg ArticleRow.id h.symm) hb
        · exact h
      have := ih hnodup.2 hmem2
      simp only [List.filter_cons]
      have hcond : (!(b.id == a.id)) = true := by
        simp [hb]
      rw [hcond]
      simp only [if_true, List.length_cons]
      omega

/-- Post-delete retention and the article filter commute. -/
theorem articlesFiltered_filter_comm (filter : ArticleFilter)
    (articles : List ArticleRow) (i : Int) :
    articlesFiltered filter (articles.filter (fun x => !(x.id == i)))
      = (articlesFiltered filter articles).filter (fun x => !(x.id == i)) := by
  unfold articlesFiltered
  rw [List.filter_filter, List.filter_filter]
  congr 1
  funext a
  exact Bool.and_comm _ _

/-- C5 (amended): after the delete action from any session whose in-memory
articles carry distinct ids and whose selection resolves to an article, the
selection index is strictly less than the new filtered count, or 0 when the
filtered set becomes empty (the handler clamps it to filtered_count - 1);
after the ToggleRead and ToggleStarred reload-based actions the invariant
can fail, the out-of-range cursor then resolving to no selection (see
`toggle_read_breaks_selection_invariant`). -/
theorem delete_article_clamps_selection (st : AppState) (a : ArticleRow)
    (hnodup : (st.articles.map ArticleRow.id).Nodup)
    (hsel : selected_article st = some a) :
    selection_invariant (handle_action st AppAction.DeleteArticle) := by
  obtain ⟨hlt, hget⟩ := List.getElem?_eq_some_iff.mp hsel
  have hmem : a ∈ filtered_articles st := hget ▸ List.getElem_mem hlt
  have hnodupF : ((filtered_articles st).map ArticleRow.id).Nodup := by
    refine List.Nodup.sublist ?_ hnodup
    exact List.Sublist.map ArticleRow.id (List.filter_sublist _)
  have hlen := length_filter_ne_id (filtered_articles st) a hnodupF hmem
  simp only [handle_action, hsel]
  unfold selection_invariant filtered_articles
  simp only [articlesFiltered_filter_comm]
  set len := ((articlesFiltered st.filter st.articles).filter
      (fun x => !(x.id == a.id))).length with hlenDef
  have hFlen : len + 1 = (filtered_articles st).length := hlen
  by_cases hge : (decide (len > 0) && decide (st.selected_index ≥ len)) = true
  · simp only [hge, if_true]
    simp only [Bool.and_eq_true, decide_eq_true_eq] at hge
    left
    omega
  · simp only [Bool.not_eq_true] at hge
    simp only [hge, Bool.false_eq_true, if_false]
    simp only [Bool.and_eq_true, decide_eq_true_eq, Bool.and_eq_false_iff,
      decide_eq_false_iff_not, not_lt, not_le] at hge
    rcases hge with h0 | hidx
    · right
      exact ⟨by omega, by omega⟩
    · left
      omega

/-- Witness for the amended C5: deleting the selected article 1 out of the
two-article session keeps the invariant. -/
theorem delete_article_clamps_selection_witness :
    selection_invariant (handle_action cexState0 AppAction.DeleteArticle) :=
  delete_article_clamps_selection cexState0 cexArticle1 (by decide) (by decide)

/-- UTF-8 byte length distributes over append. -/
theorem utf8Len_append (xs ys : List Char) :
    utf8Len (xs ++ ys) = utf8Len xs + utf8Len ys := by
  induction xs with
  | nil => simp [utf8Len]
  | cons c cs ih => simp [utf8Len, ih, Nat.add_assoc]

/-- A run of n ASCII characters occupies n bytes. -/
theorem utf8Len_replicate_a (n : Nat) :
    utf8Len (List.replicate n 'a') = n := by
  induction n with
  | zero => rfl
  | succ n ih =>
    have h1 : utf8Size 'a' = 1 := rfl
    rw [List.replicate_succ]
    show utf8Size 'a' + utf8Len (List.replicate n 'a') = n + 1
    rw [h1, ih]
    omega

/-- Slicing at byte n + 1 into n ASCII characters followed by the two-byte
character U+00E9 lands inside that character and panics. -/
theorem sliceToByte_multibyte (n : Nat) :
    sliceToByte (n + 1) (List.replicate n 'a' ++ [Char.ofNat 233, 'x'])
      = none := by
  induction n with
  | zero => rfl
  | succ n ih =>
    rw [List.replicate_succ, List.cons_append]
    show sliceToByte (n + 2)
      ('a' :: (List.replicate n 'a' ++ [Char.ofNat 233, 'x'])) = none
    have h1 : utf8Size 'a' = 1 := rfl
    unfold sliceToByte
    rw [h1]
    have hle : (1 : Nat) ≤ n + 2 := by omega
    rw [if_pos hle]
    have harith : n + 2 - 1 = n + 1 := by omega
    rw [harith, ih]
    rfl

/-- C6 is a code bug: the execute step is NOT total over multi-byte
content.  On content of 9999 ASCII characters followed by U+00E9 (byte
length 10002 > 10000), the truncation `&article_content[..10000]` slices at
a byte index that is not a character boundary, so building the backend
request panics (modelled as `none`) instead of computing a truncated
request.  The code also truncates by bytes, not by the 10,000 characters
the claim states. -/
theorem truncation_fails_on_multibyte_boundary :
    mkUserMessage "T".data multiByteContent = none := by
  unfold mkUserMessage truncateContent multiByteContent
  have hlen : utf8Len (List.replicate 9999 'a' ++ [Char.ofNat 233, 'x'])
      = 10002 := by
    rw [utf8Len_append, utf8Len_replicate_a]
    rfl
  rw [hlen]
  rw [if_pos (by omega : (10002 : Nat) > 10000)]
  have : (10000 : Nat) = 9999 + 1 := by omega
  rw [this, sliceToByte_multibyte 9999]
  rfl

/-- C7: upserting an article whose (feed_id, guid) key already names
exactly one stored row leaves exactly one row for that key, its title,
url, author, content, content_text and published_at updated to the new
values and its id, fetched_at, is_read and is_starred unchanged (the
record update rewrites only the six listed fields of the old row `r`). -/
theorem upsert_article_merges_by_natural_key (tbl : List ArticleRow)
    (article : NewArticle) (freshId now : Int) (r : ArticleRow)
    (h : tbl.filter (keyMatches article) = [r]) :
    (upsert_article tbl article freshId now).filter (keyMatches article)
      = [{ r with title := article.title
                  url := article.url
                  author := article.author
                  content := article.content
                  content_text := article.content_text
                  published_at := article.published_at }] := by
  have hrmem : r ∈ tbl.filter (keyMatches article) := by rw [h]; simp
  have hmem : r ∈ tbl := List.mem_of_mem_filter hrmem
  have hkey : keyMatches article r = true := List.of_mem_filter hrmem
  have hany : tbl.any (keyMatches article) = true :=
    List.any_eq_true.mpr ⟨r, hmem, hkey⟩
  unfold upsert_article
  rw [if_pos hany]
  rw [List.filter_map]
  have hcomp : (keyMatches article ∘ fun x : ArticleRow =>
      if keyMatches article x then
        { x with title := article.title
                 url := article.url
                 author := article.author
                 content := article.content
                 content_text := article.content_text
                 published_at := article.published_at }
      else x) = keyMatches article := by
    funext x
    by_cases hx : keyMatches article x
    · simp only [Function.comp_apply, if_pos hx]
      rfl
    · simp only [Function.comp_apply, if_neg hx]
  rw [hcomp, h]
  simp [hkey]

/-- Witness for C7: re-fetching article (1, "g") over the stored read and
starred row 10 keeps one row with id 10, flags intact, fields updated. -/
theorem upsert_article_merges_by_natural_key_witness :
    (upsert_article [wRow] wNew 11 4).filter (keyMatches wNew)
      = [{ wRow with title := wNew.title
                     url := wNew.url
                     author := wNew.author
                     content := wNew.content
                     content_text := wNew.content_text
                     published_at := wNew.published_at }] :=
  upsert_article_merges_by_natural_key [wRow] wNew 11 4 wRow (by decide)

/-- Updating the last-fetched timestamp of feed j leaves the rows of any
other feed id i untouched. -/
theorem update_feed_last_fetched_other_id (tbl : List FeedR) (j i now_ : Int)
    (hne : j ≠ i) :
    ((update_feed_last_fetched tbl j now_).filter (fun r => r.id == i)).map
        FeedR.last_fetched
      = (tbl.filter (fun r => r.id == i)).map FeedR.last_fetched := by
  unfold update_feed_last_fetched
  rw [List.filter_map]
  have hcomp : ((fun r : FeedR => r.id == i) ∘ fun f : FeedR =>
      if f.id == j then { f with last_fetched := some now_, updated_at := now_ }
      else f) = (fun r : FeedR => r.id == i) := by
    funext f
    by_cases hf : (f.id == j) = true
    · simp only [Function.comp_apply, hf, if_true]
    · simp only [Bool.not_eq_true] at hf
      simp only [Function.comp_apply, hf, Bool.false_eq_true, if_false]
  rw [hcomp, List.map_map]
  apply List.map_congr_left
  intro f hf
  have hfi : f.id = i := by
    have := List.of_mem_filter hf
    simpa using this
  have hfj : (f.id == j) = false := by
    simp only [hfi, beq_eq_false_iff_ne, ne_eq]
    intro hij
    exact hne hij.symm
  simp only [Function.comp_apply, hfj, Bool.false_eq_true, if_false]

/-- The refresh loop leaves the last-fetched timestamps of every feed id
absent from the results untouched. -/
theorem refresh_feeds_db_skips_id (results : List (Int × List NewArticle))
    (tbl : List FeedR) (i now_ : Int)
    (hni : ∀ p ∈ results, p.1 ≠ i) :
    ((refresh_feeds_db tbl results now_).filter (fun r => r.id == i)).map
        FeedR.last_fetched
      = (tbl.filter (fun r => r.id == i)).map FeedR.last_fetched := by
  induction results generalizing tbl with
  | nil => rfl
  | cons p ps ih =>
    unfold refresh_feeds_db
    rw [List.foldl_cons]
    have step := update_feed_last_fetched_other_id tbl p.1 i now_
      (hni p (List.mem_cons_self p ps))
    have := ih (update_feed_last_fetched tbl p.1 now_)
      (fun q hq => hni q (List.mem_cons_of_mem p hq))
    unfold refresh_feeds_db at this
    rw [this, step]

/-- C8: for a feed list with distinct ids, a feed whose fetch fails is
excluded from the refresh results (its id appears in no result); every feed
whose fetch succeeds still has its articles in the results, unaffected by
the failure; and the refresh cycle leaves the failed feed's last-fetched
timestamp unchanged, because the loop only advances timestamps of feeds
present in the success results. -/
theorem refresh_all_isolates_failures
    (fetch : FeedR → Except String (List NewArticle)) (feeds : List FeedR)
    (f g : FeedR) (e : String) (arts : List NewArticle)
    (tbl : List FeedR) (now_ : Int)
    (hids : (feeds.map FeedR.id).Nodup)
    (hf : f ∈ feeds) (hferr : fetch f = Except.error e)
    (hg : g ∈ feeds) (hgok : fetch g = Except.ok arts) :
    f.id ∉ (refresh_all fetch feeds).map Prod.fst
    ∧ (g.id, arts) ∈ refresh_all fetch feeds
    ∧ ((refresh_feeds_db tbl (refresh_all fetch feeds) now_).filter
          (fun r => r.id == f.id)).map FeedR.last_fetched
        = (tbl.filter (fun r => r.id == f.id)).map FeedR.last_fetched := by
  have hnotmem : f.id ∉ (refresh_all fetch feeds).map Prod.fst := by
    intro hmemId
    obtain ⟨p, hp, hpid⟩ := List.mem_map.mp hmemId
    obtain ⟨feed, hfeed, hfp⟩ := List.mem_filterMap.mp hp
    rcases hfetch : fetch feed with e2 | arts2
    · rw [hfetch] at hfp
      exact Option.noConfusion hfp
    · rw [hfetch] at hfp
      have hpeq : p = (feed.id, arts2) := (Option.some.injEq _ _).mp hfp.symm
      have hid : feed.id = f.id := by rw [← hpid, hpeq]
      have : feed = f := List.inj_on_of_nodup_map hids hfeed hf hid
      rw [this, hferr] at hfetch
      exact Except.noConfusion hfetch
  refine ⟨hnotmem, ?_, ?_⟩
  · exact List.mem_filterMap.mpr ⟨g, hg, by rw [hgok]⟩
  · apply refresh_feeds_db_skips_id
    intro p hp hpid
    exact hnotmem (hpid ▸ List.mem_map_of_mem Prod.fst hp)

/-- Witness for C8: of two feeds, feed 1 times out and feed 2 returns one
article; feed 1 is excluded, feed 2's articles are returned, and feed 1's
last-fetched timestamp survives the refresh at instant 42. -/
theorem refresh_all_isolates_failures_witness :
    wFeedFail.id ∉ (refresh_all wFetch [wFeedFail, wFeedOk]).map Prod.fst
    ∧ (wFeedOk.id, [wNew]) ∈ refresh_all wFetch [wFeedFail, wFeedOk]
    ∧ ((refresh_feeds_db [wFeedFail, wFeedOk]
          (refresh_all wFetch [wFeedFail, wFeedOk]) 42).filter
          (fun r => r.id == wFeedFail.id)).map FeedR.last_fetched
        = ([wFeedFail, wFeedOk].filter
            (fun r => r.id == wFeedFail.id)).map FeedR.last_fetched :=
  refresh_all_isolates_failures wFetch [wFeedFail, wFeedOk] wFeedFail wFeedOk
    "timeout" [wNew] [wFeedFail, wFeedOk] 42 (by decide) (by decide) rfl
    (by decide) rfl

/-- C9: on a document where the rel-before-type pattern has a (leftmost)
match capturing href h1 and the type-before-rel pattern also matches
somewhere (capturing h2), `find_feed_link` returns h1's resolution — the
rel-first pattern takes precedence regardless of where the two tags sit in
the document — and when h1 is a relative reference (no http/https scheme)
it is resolved by joining it onto the base URL, which the caller passes as
the fetched page's final post-redirect URL. -/
theorem find_feed_link_rel_first_precedence
    (urlJoin : List Char → List Char → Option (List Char))
    (html base_url h1 h2 : List Char)
    (hrel : firstCaptures linkRe1 html = some (some h1))
    (htype : firstCaptures linkRe2 html = some (some h2)) :
    find_feed_link urlJoin html base_url = some (resolve_url urlJoin h1 base_url)
    ∧ (∀ resolved : List Char,
        "http://".data.isPrefixOf h1 = false →
        "https://".data.isPrefixOf h1 = false →
        urlJoin base_url h1 = some resolved →
        find_feed_link urlJoin html base_url = some resolved) := by
  have hmain : find_feed_link urlJoin html base_url
      = some (resolve_url urlJoin h1 base_url) := by
    unfold find_feed_link
    rw [hrel]
  refine ⟨hmain, fun resolved hp1 hp2 hj => ?_⟩
  rw [hmain]
  unfold resolve_url
  rw [hp1, hp2]
  simp only [Bool.or_self, Bool.false_eq_true, if_false, hj]

/-- Witness for C9: `wHtml` places a type-first rss tag (href `x`) before a
rel-first atom tag (relative href `/f`); discovery selects `/f` and joins
it onto the base URL. -/
theorem find_feed_link_rel_first_precedence_witness :
    find_feed_link wJoin wHtml wBase = some (resolve_url wJoin "/f".data wBase)
    ∧ (∀ resolved : List Char,
        "http://".data.isPrefixOf "/f".data = false →
        "https://".data.isPrefixOf "/f".data = false →
        wJoin wBase "/f".data = some resolved →
        find_feed_link wJoin wHtml wBase = some resolved) :=
  find_feed_link_rel_first_precedence wJoin wHtml wBase "/f".data "x".data
    (by decide) (by decide)

/-- C10: deleting an article removes, in the same operation, its Summary
row and its SavedBookmark tracking row together with the article row, so
when every dependent row referenced an existing article before the delete,
none references a non-existent article after it (and no dependent row for
the deleted id survives at all). -/
theorem delete_article_removes_dependents (summaries : List Summary)
    (saved : List SavedRow) (articles : List ArticleRow) (id : Int)
    (hs : ∀ s ∈ summaries, ∃ a ∈ articles, a.id = s.article_id)
    (hb : ∀ b ∈ saved, ∃ a ∈ articles, a.id = b.article_id) :
    (∀ s ∈ (delete_article summaries saved articles id).1, s.article_id ≠ id)
    ∧ (∀ b ∈ (delete_article summaries saved articles id).2.1,
        b.article_id ≠ id)
    ∧ (∀ s ∈ (delete_article summaries saved articles id).1,
        ∃ a ∈ (delete_article summaries saved articles id).2.2,
          a.id = s.article_id)
    ∧ (∀ b ∈ (delete_article summaries saved articles id).2.1,
        ∃ a ∈ (delete_article summaries saved articles id).2.2,
          a.id = b.article_id) := by
  unfold delete_article
  simp only [List.mem_filter, Bool.not_eq_true', beq_eq_false_iff_ne, ne_eq]
  refine ⟨fun s hsm => hsm.2, fun b hbm => hbm.2, ?_, ?_⟩
  · intro s hsm
    obtain ⟨a, ham, haid⟩ := hs s hsm.1
    exact ⟨a, ⟨ham, by rw [haid]; exact hsm.2⟩, haid⟩
  · intro b hbm
    obtain ⟨a, ham, haid⟩ := hb b hbm.1
    exact ⟨a, ⟨ham, by rw [haid]; exact hbm.2⟩, haid⟩

/-- Witness for C10: deleting article 1 removes its summary row and its
bookmark row, and the surviving article 2 keeps referential integrity. -/
theorem delete_article_removes_dependents_witness :
    (∀ s ∈ (delete_article [cachedSummary1] [wSaved1]
        [cexArticle1, cexArticle2] 1).1, s.article_id ≠ 1)
    ∧ (∀ b ∈ (delete_article [cachedSummary1] [wSaved1]
        [cexArticle1, cexArticle2] 1).2.1, b.article_id ≠ 1)
    ∧ (∀ s ∈ (delete_article [cachedSummary1] [wSaved1]
        [cexArticle1, cexArticle2] 1).1,
        ∃ a ∈ (delete_article [cachedSummary1] [wSaved1]
          [cexArticle1, cexArticle2] 1).2.2, a.id = s.article_id)
    ∧ (∀ b ∈ (delete_article [cachedSummary1] [wSaved1]
        [cexArticle1, cexArticle2] 1).2.1,
        ∃ a ∈ (delete_article [cachedSummary1] [wSaved1]
          [cexArticle1, cexArticle2] 1).2.2, a.id = b.article_id) :=
  delete_article_removes_dependents [cachedSummary1] [wSaved1]
    [cexArticle1, cexArticle2] 1 (by decide) (by decide)
